import Mathlib

/-!
Verification of the image-loading subsystem of the stock-management frontend.

Part 1 embeds `loadImage` from `src/frontend/src/imageHandler.ts` (the
current version of the file, lines 14-112).  Part 2 embeds the
`ImageDisplay` component from `src/unnamed/part_022` (`ImageDisplay.tsx`,
current version).

Modelling conventions:
- JavaScript strings are Lean `String`s; the JS string primitives used by
  the source (`trim`, `startsWith`, `substring(1)`, `includes`) are
  re-implemented on `List Char` so that every definition reduces in the
  kernel.
- The browser transport is a function `Nat → FetchOutcome` giving, for each
  attempt number (1-based), what `fetch` + `response.blob()` did on that
  attempt: either the fetch rejected (network error, abort-on-timeout) with
  a message, or a response arrived carrying a status, status text,
  content-type header and a blob read result.  `response.ok` is derived
  from the status as in the fetch specification (status in 200..299).
- `URL.createObjectURL` is modelled as the constructor `Resource.objectUrl`
  applied to the blob's bytes: an object URL is an opaque handle wrapping
  the fetched body.
- `loadImage` returns, besides its `ImageLoadResult`, an observation trace:
  how many fetch calls were issued, which sleeps (in ms) were performed
  between attempts, and the request URL used (none when no fetch happened).
  `console.warn` calls are not observable state and are dropped.
-/

namespace StockImage

/-- JS `sub ⊆ s` contiguous-substring test on character lists, the meaning
of `String.prototype.includes`. -/
def listContainsSub (sub : List Char) : List Char → Bool
  | [] => List.isPrefixOf sub []
  | c :: t => List.isPrefixOf sub (c :: t) || listContainsSub sub t

/-- JS `s.includes(sub)`. -/
def jsIncludes (s sub : String) : Bool :=
  listContainsSub sub.data s.data

/-- JS `s.startsWith(pre)`. -/
def jsStartsWith (s pre : String) : Bool :=
  List.isPrefixOf pre.data s.data

/-- JS `s.trim()`: drop leading and trailing whitespace. -/
def jsTrim (s : String) : String :=
  ⟨((s.data.dropWhile Char.isWhitespace).reverse.dropWhile Char.isWhitespace).reverse⟩

/-- JS `s.substring(1)`: drop the first character. -/
def jsDropFirst (s : String) : String :=
  ⟨s.data.drop 1⟩

/-- Constant `IMAGE_RETRY_ATTEMPTS` from imageHandler.ts. -/
def IMAGE_RETRY_ATTEMPTS : Nat := 2

/-- Constant `IMAGE_RETRY_DELAY` (ms) from imageHandler.ts. -/
def IMAGE_RETRY_DELAY : Nat := 500

/-- Constant `IMAGE_LOAD_TIMEOUT` (ms) from imageHandler.ts. -/
def IMAGE_LOAD_TIMEOUT : Nat := 10000

/-- A browser-local renderable handle: `URL.createObjectURL(blob)` wrapping
the fetched bytes. -/
inductive Resource where
  | objectUrl (bytes : List Nat)
deriving Repr, DecidableEq

/-- The interface `ImageLoadResult` of imageHandler.ts: `success: boolean`,
optional `url` (the object URL), optional `error` message. -/
structure ImageLoadResult where
  success : Bool
  url : Option Resource := none
  error : Option String := none
deriving Repr, DecidableEq

/-- What one `fetch` attempt did, as seen by the `try` block of the retry
loop: either the awaited fetch (or abort) threw with a message, or a
response arrived.  `blobResult` is what `await response.blob()` did: a
thrown error's message, or the body bytes. -/
inductive FetchOutcome where
  | fetchError (msg : String)
  | response (status : Nat) (statusText : String) (contentType : Option String)
      (blobResult : Except String (List Nat))
deriving Repr

/-- Transport: the outcome of each 1-based fetch attempt. -/
def Transport := Nat → FetchOutcome

/-- Fetch-spec `response.ok`: status in the inclusive range 200..299. -/
def responseOk (status : Nat) : Bool :=
  200 ≤ status && status ≤ 299

/-- Body of the `try` block of one attempt of `loadImage` (imageHandler.ts
lines 60-93): validate the response in order (HTTP status, content-type
not HTML, non-empty blob) and produce either the thrown error's message or
the object URL wrapping the blob. -/
def attemptLoad (o : FetchOutcome) : Except String Resource :=
  match o with
  | .fetchError msg => .error msg
  | .response status statusText contentTypeHeader blobResult =>
    if !responseOk status then
      .error ("HTTP " ++ toString status ++ ": " ++ statusText)
    else
      let contentType := contentTypeHeader.getD ""
      if jsIncludes contentType "text/html" then
        .error "Server returned HTML instead of image"
      else
        match blobResult with
        | .error msg => .error msg
        | .ok bytes =>
          if bytes.length = 0 then
            .error "Empty response received"
          else
            .ok (.objectUrl bytes)

/-- Definitive-error test of the `catch` block (imageHandler.ts line 101):
`errorMsg.includes('404') || errorMsg.includes('HTML instead')`. -/
def isDefinitiveError (msg : String) : Bool :=
  jsIncludes msg "404" || jsIncludes msg "HTML instead"

/-- Observable outcome of a whole `loadImage` call: the returned result,
the number of fetch calls issued, the sleeps performed (ms, in order) and
the request URL (none when no fetch was issued). -/
structure LoadTrace where
  result : ImageLoadResult
  fetchCalls : Nat
  sleeps : List Nat
  requestUrl : Option String
deriving Repr, DecidableEq

/-- Final `return { success: false, error: lastError || 'Failed to load
image' }` of imageHandler.ts line 111. -/
def finalFailure (lastError : String) : ImageLoadResult :=
  { success := false
    error := some (if lastError = "" then "Failed to load image" else lastError) }

/-- The retry loop of `loadImage` (imageHandler.ts lines 59-109).
`remaining` counts the attempts still allowed (so the loop guard
`attempt <= IMAGE_RETRY_ATTEMPTS` is `remaining > 0`, and the retry guard
`attempt < IMAGE_RETRY_ATTEMPTS` is `remaining > 1`); `attempt` is the
1-based attempt counter; `lastError`, `calls` and `sleeps` accumulate the
loop state and the observation trace. -/
def loadLoop (t : Transport) (url : String) :
    Nat → Nat → String → Nat → List Nat → LoadTrace
  | 0, _, lastError, calls, sleeps =>
    ⟨finalFailure lastError, calls, sleeps, some url⟩
  | remaining + 1, attempt, _, calls, sleeps =>
    match attemptLoad (t attempt) with
    | .ok res =>
      ⟨{ success := true, url := some res }, calls + 1, sleeps, some url⟩
    | .error msg =>
      if isDefinitiveError msg then
        ⟨finalFailure msg, calls + 1, sleeps, some url⟩
      else
        match remaining with
        | 0 => ⟨finalFailure msg, calls + 1, sleeps, some url⟩
        | r + 1 =>
          loadLoop t url (r + 1) (attempt + 1) msg (calls + 1)
            (sleeps ++ [IMAGE_RETRY_DELAY * attempt])

/-- Guard of imageHandler.ts line 48 for a non-null path:
`!imageRelativePath || imageRelativePath.trim() === ''`. -/
def emptyPathGuard (p : String) : Bool :=
  p = "" || jsTrim p = ""

/-- The exported `loadImage` of imageHandler.ts (lines 47-112), with the
transport and the proxy base URL (`API_CONFIG.BASE_URL`) abstracted as
parameters.  A `none` path is JS `null`. -/
def loadImage (t : Transport) (baseUrl : String) (path : Option String) : LoadTrace :=
  match path with
  | none =>
    ⟨{ success := false, error := some "No image path provided" }, 0, [], none⟩
  | some p =>
    if emptyPathGuard p then
      ⟨{ success := false, error := some "No image path provided" }, 0, [], none⟩
    else
      let cleanPath := if jsStartsWith p "/" then jsDropFirst p else p
      let proxiedUrl := baseUrl ++ "/image-proxy/" ++ cleanPath
      loadLoop t proxiedUrl IMAGE_RETRY_ATTEMPTS 1 "" 0 []

/-!
Part 2: the `ImageDisplay` component of `src/unnamed/part_022`
(`ImageDisplay.tsx`, current version).

The component is a React function component; its behaviour is embedded as
a transition system on an explicit `Surface` state:
- The four `useState` cells `imageUrl`, `isLoading`, `error`,
  `renderFailed` become fields; state setters become field updates.
- The `useEffect` keyed on `imagePath` becomes the `setPathStep`
  transition.  Each effect run closes over its own `isMounted` flag, which
  the run's cleanup (executed right before the next run, or on unmount)
  sets to false; this is modelled by a generation counter `gen`: a run's
  `isMounted` is true exactly when its generation is still the surface's
  current `gen` and the surface is still `mounted`.  The cleanup's
  `URL.revokeObjectURL(currentUrl)` is modelled by appending the run-local
  `currentUrl` to the `released` log.
- The completion of the async `loadImg` dispatched by the run of
  generation `g` becomes the `resolveStep g result` transition.  The
  source's `catch` branch around `await loadImage(...)` is unreachable
  (the loader never rejects, see `c6_never_throws`) and is not modelled.
- Firing of the rendered image element's `onError` handler becomes
  `renderErrorStep`; the `onLoad`/`onError` observer callbacks are logged
  in `callbacks`.
- JS truthiness: `result.url` and the rendered `imageUrl` are object-URL
  strings, which are never empty, so their truthiness is `Option.isSome`;
  the truthiness of the `error` string cell is emptiness-aware
  (`errTruthy`), as is the `error || 'Image failed to render'` caption
  (`jsStrOr`).
-/

/-- Observer-callback invocations of the component: `onLoad?.()` and
`onError?.(msg)`. -/
inductive CallbackEvent where
  | onLoad
  | onError (msg : String)
deriving Repr, DecidableEq

/-- State of one `ImageDisplay` instance: the `useState` cells, the
effect-generation bookkeeping (`gen`, `mounted`, run-local `currentUrl`),
and the observation logs `released` (revoked object URLs) and
`callbacks`. -/
structure Surface where
  imageUrl : Option Resource
  isLoading : Bool
  error : Option String
  renderFailed : Bool
  gen : Nat
  mounted : Bool
  currentUrl : Option Resource
  released : List Resource
  callbacks : List CallbackEvent
deriving Repr, DecidableEq

/-- A freshly mounted component before its first effect run: the
`useState` initial values of ImageDisplay.tsx lines 68-71. -/
def initSurface : Surface :=
  { imageUrl := none, isLoading := true, error := none, renderFailed := false
    gen := 0, mounted := true, currentUrl := none, released := [], callbacks := [] }

/-- JS truthiness of the `imagePath` prop: false for `null` and for the
empty string. -/
def pathTruthy : Option String → Bool
  | none => false
  | some p => !(p == "")

/-- One run of the `useEffect` (ImageDisplay.tsx lines 72-134), triggered
on mount and on every change of `imagePath`: the previous run's cleanup
fires (its `isMounted` flag goes false — the `gen` bump — and its
`currentUrl` is revoked), the state cells are reset, and the empty-path
guard either errors out synchronously or a load is dispatched under the
new generation. -/
def setPathStep (s : Surface) (path : Option String) : Surface :=
  let cleaned : Surface :=
    { s with gen := s.gen + 1
             released := s.released ++ s.currentUrl.toList
             currentUrl := none
             isLoading := true, error := none, imageUrl := none, renderFailed := false }
  if !pathTruthy path then
    { cleaned with
        isLoading := false
        error := some "No image provided"
        callbacks := cleaned.callbacks ++ [.onError "No image path"] }
  else
    cleaned

/-- JS `s || default` for an optional string cell: the default is taken
when the cell is absent or holds the empty (falsy) string. -/
def jsStrOr (s : Option String) (dflt : String) : String :=
  match s with
  | none => dflt
  | some m => if m = "" then dflt else m

/-- Completion of the `loadImg` dispatched by the effect run of generation
`g` (ImageDisplay.tsx lines 92-118): when that run's `isMounted` is false
(a newer run exists, or the component unmounted) the result's URL is
revoked and nothing else happens; otherwise the result is committed to the
state cells, the observer callbacks fire, and `finally` clears
`isLoading`. -/
def resolveStep (s : Surface) (g : Nat) (result : ImageLoadResult) : Surface :=
  if s.mounted && g == s.gen then
    let s1 :=
      if result.success && result.url.isSome then
        { s with currentUrl := result.url
                 imageUrl := result.url
                 error := none
                 callbacks := s.callbacks ++ [CallbackEvent.onLoad] }
      else
        let errorMsg := jsStrOr result.error "Failed to load image"
        { s with error := some errorMsg
                 callbacks := s.callbacks ++ [CallbackEvent.onError errorMsg] }
    { s1 with isLoading := false }
  else
    { s with released := s.released ++ result.url.toList }

/-- Unmount: the last effect run's cleanup fires (ImageDisplay.tsx lines
127-132): its `isMounted` goes false and its `currentUrl` is revoked. -/
def unmountStep (s : Surface) : Surface :=
  { s with mounted := false
           released := s.released ++ s.currentUrl.toList
           currentUrl := none }

/-- The rendered image element's `onError` handler (ImageDisplay.tsx lines
194-200): set `renderFailed` once, guarded so repeated firings change
nothing. -/
def renderErrorStep (s : Surface) : Surface :=
  if !s.renderFailed then { s with renderFailed := true } else s

/-- What the component renders: the loading skeleton, the error box with
its caption, the image element bound to a resource, or nothing. -/
inductive View where
  | placeholder
  | errorBox (text : String)
  | image (r : Resource)
  | empty
deriving Repr, DecidableEq

/-- JS truthiness of the `error` state cell. -/
def errTruthy (s : Surface) : Bool :=
  match s.error with
  | some m => !(m == "")
  | none => false

/-- The render function of the component (ImageDisplay.tsx lines 140-216):
skeleton while loading (when `showPlaceholder`), else the error box when
`error || renderFailed` with caption `error || 'Image failed to render'`,
else the image element when `imageUrl` is truthy, else nothing. -/
def render (showPlaceholder : Bool) (s : Surface) : View :=
  if s.isLoading && showPlaceholder then
    .placeholder
  else if errTruthy s || s.renderFailed then
    .errorBox (jsStrOr s.error "Image failed to render")
  else
    match s.imageUrl with
    | some r => .image r
    | none => .empty

/-- External events driving one `ImageDisplay` instance. -/
inductive Event where
  | setPath (path : Option String)
  | resolve (g : Nat) (result : ImageLoadResult)
  | renderError
  | unmount
deriving Repr

/-- One event step. -/
def step (s : Surface) : Event → Surface
  | .setPath p => setPathStep s p
  | .resolve g r => resolveStep s g r
  | .renderError => renderErrorStep s
  | .unmount => unmountStep s

/-- Run a sequence of events from a state. -/
def run (s : Surface) : List Event → Surface
  | [] => s
  | e :: es => run (step s e) es

/-!
Helper lemmas shared by the claim theorems.
-/

/-- A prefix of a list is a prefix of any right extension of it. -/
theorem isPrefixOf_of_append {p l : List Char} (ys : List Char)
    (h : List.isPrefixOf p l = true) : List.isPrefixOf p (l ++ ys) = true := by
  rw [List.isPrefixOf_iff_prefix] at h ⊢
  exact h.trans (List.prefix_append l ys)

/-- A substring occurrence survives extending the haystack on the right. -/
theorem listContainsSub_append_left {sub xs : List Char} (ys : List Char)
    (h : listContainsSub sub xs = true) : listContainsSub sub (xs ++ ys) = true := by
  induction xs with
  | nil =>
    have hsub : List.isPrefixOf sub ([] : List Char) = true := h
    cases sub with
    | nil =>
      cases ys with
      | nil => rfl
      | cons c t => simp [listContainsSub, List.isPrefixOf]
    | cons a as => simp [List.isPrefixOf] at hsub
  | cons c t ih =>
    have h' : List.isPrefixOf sub (c :: t) = true ∨ listContainsSub sub t = true :=
      Bool.or_eq_true_iff.mp h
    show (List.isPrefixOf sub (c :: t ++ ys) || listContainsSub sub (t ++ ys)) = true
    rcases h' with hpre | hrec
    · exact Bool.or_eq_true_iff.mpr (Or.inl (isPrefixOf_of_append ys hpre))
    · exact Bool.or_eq_true_iff.mpr (Or.inr (ih hrec))

/-- A substring occurrence in `s` survives appending `t` on the right. -/
theorem jsIncludes_append_left (s t sub : String) (h : jsIncludes s sub = true) :
    jsIncludes (s ++ t) sub = true := by
  unfold jsIncludes at h ⊢
  rw [String.data_append]
  exact listContainsSub_append_left t.data h

/-- Appending to a non-empty string keeps it non-empty. -/
theorem append_ne_empty_of_left {s : String} (t : String) (h : s ≠ "") :
    s ++ t ≠ "" := by
  intro he
  apply h
  have hd : (s ++ t).data = ("" : String).data := congrArg String.data he
  rw [String.data_append] at hd
  have hnil : s.data = [] := (List.append_eq_nil.mp hd).1
  cases s with
  | mk d => cases hnil; rfl

/-- The final failure value carries the last error verbatim when that error
is non-empty. -/
theorem finalFailure_of_ne {msg : String} (h : msg ≠ "") :
    finalFailure msg = { success := false, url := none, error := some msg } := by
  simp [finalFailure, h]

/-- The retry loop issues at most `remaining` further fetch calls. -/
theorem loadLoop_fetchCalls_le (t : Transport) (url : String) :
    ∀ (remaining attempt : Nat) (lastError : String) (calls : Nat) (sleeps : List Nat),
      (loadLoop t url remaining attempt lastError calls sleeps).fetchCalls
        ≤ calls + remaining := by
  intro remaining
  induction remaining with
  | zero => intro attempt lastError calls sleeps; simp [loadLoop]
  | succ n ih =>
    intro attempt lastError calls sleeps
    rw [loadLoop]
    cases attemptLoad (t attempt) with
    | ok res => simp
    | error msg =>
      by_cases hd : isDefinitiveError msg = true
      · simp [hd]
      · simp only [hd, Bool.false_eq_true, if_false]
        cases n with
        | zero => simp
        | succ m =>
          exact le_trans (ih (attempt + 1) msg (calls + 1) _) (by omega)

/-- The retry loop always records the request URL it was given. -/
theorem loadLoop_requestUrl (t : Transport) (url : String) :
    ∀ (remaining attempt : Nat) (lastError : String) (calls : Nat) (sleeps : List Nat),
      (loadLoop t url remaining attempt lastError calls sleeps).requestUrl = some url := by
  intro remaining
  induction remaining with
  | zero => intro attempt lastError calls sleeps; rfl
  | succ n ih =>
    intro attempt lastError calls sleeps
    rw [loadLoop]
    cases attemptLoad (t attempt) with
    | ok res => rfl
    | error msg =>
      by_cases hd : isDefinitiveError msg = true
      · simp [hd]
      · simp only [hd, Bool.false_eq_true, if_false]
        cases n with
        | zero => rfl
        | succ m => exact ih (attempt + 1) msg (calls + 1) _

/-- An attempt that passes all validation ends the loop with a success
wrapping the attempt's resource. -/
theorem loadLoop_first_ok (t : Transport) (url : String) (remaining attempt : Nat)
    (lastError : String) (calls : Nat) (sleeps : List Nat) (res : Resource)
    (h : attemptLoad (t attempt) = .ok res) :
    loadLoop t url (remaining + 1) attempt lastError calls sleeps
      = ⟨{ success := true, url := some res }, calls + 1, sleeps, some url⟩ := by
  rw [loadLoop, h]

/-- An attempt that fails with a definitive error ends the loop at once
with that error. -/
theorem loadLoop_first_definitive (t : Transport) (url : String) (remaining attempt : Nat)
    (lastError : String) (calls : Nat) (sleeps : List Nat) (msg : String)
    (h : attemptLoad (t attempt) = .error msg) (hd : isDefinitiveError msg = true) :
    loadLoop t url (remaining + 1) attempt lastError calls sleeps
      = ⟨finalFailure msg, calls + 1, sleeps, some url⟩ := by
  rw [loadLoop, h]
  simp [hd]

/-- An attempt that fails non-definitively, with attempts still allowed
after it, sleeps `IMAGE_RETRY_DELAY * attempt` and retries. -/
theorem loadLoop_step_retry (t : Transport) (url : String) (r attempt : Nat)
    (lastError : String) (calls : Nat) (sleeps : List Nat) (msg : String)
    (h : attemptLoad (t attempt) = .error msg) (hd : isDefinitiveError msg = false) :
    loadLoop t url (r + 1 + 1) attempt lastError calls sleeps
      = loadLoop t url (r + 1) (attempt + 1) msg (calls + 1)
          (sleeps ++ [IMAGE_RETRY_DELAY * attempt]) := by
  rw [loadLoop, h]
  simp [hd]

/-- Behaviour of the loop's last allowed attempt: the trace fields are
final, a failing attempt's message becomes the final failure, a passing
attempt's resource becomes the success. -/
theorem loadLoop_last (t : Transport) (url : String) (attempt : Nat)
    (lastError : String) (calls : Nat) (sleeps : List Nat) :
    (loadLoop t url 1 attempt lastError calls sleeps).sleeps = sleeps ∧
    (loadLoop t url 1 attempt lastError calls sleeps).fetchCalls = calls + 1 ∧
    (∀ msg, attemptLoad (t attempt) = .error msg →
      (loadLoop t url 1 attempt lastError calls sleeps).result = finalFailure msg) ∧
    (∀ res, attemptLoad (t attempt) = .ok res →
      (loadLoop t url 1 attempt lastError calls sleeps).result
        = { success := true, url := some res, error := none }) := by
  rw [loadLoop]
  cases h : attemptLoad (t attempt) with
  | ok res =>
    refine ⟨rfl, rfl, ?_, ?_⟩
    · intro msg hmsg; exact absurd hmsg (by simp)
    · intro r hr; injection hr with h2; rw [h2]
  | error msg =>
    dsimp only
    by_cases hd : isDefinitiveError msg = true
    · rw [if_pos hd]
      refine ⟨rfl, rfl, ?_, ?_⟩
      · intro m hm; injection hm with h2; rw [h2]
      · intro r hr; exact absurd hr (by simp)
    · rw [if_neg hd]
      refine ⟨rfl, rfl, ?_, ?_⟩
      · intro m hm; injection hm with h2; rw [h2]
      · intro r hr; exact absurd hr (by simp)

/-- Unfolding of `loadImage` at a path that passes the empty-path guard. -/
theorem loadImage_valid (t : Transport) (baseUrl p : String)
    (hp : emptyPathGuard p = false) :
    loadImage t baseUrl (some p)
      = loadLoop t
          (baseUrl ++ "/image-proxy/" ++ (if jsStartsWith p "/" then jsDropFirst p else p))
          IMAGE_RETRY_ATTEMPTS 1 "" 0 [] := by
  simp [loadImage, hp]

/-- A result is a well-formed tagged outcome: a success holding a resource
and no error, or a failure holding an error message and no resource. -/
def resultWellFormed (r : ImageLoadResult) : Bool :=
  (r.success && r.url.isSome && r.error.isNone) ||
    (!r.success && r.url.isNone && r.error.isSome)

/-- Every value the retry loop can return is a well-formed tagged outcome. -/
theorem loadLoop_wellFormed (t : Transport) (url : String) :
    ∀ (remaining attempt : Nat) (lastError : String) (calls : Nat) (sleeps : List Nat),
      resultWellFormed (loadLoop t url remaining attempt lastError calls sleeps).result
        = true := by
  intro remaining
  induction remaining with
  | zero =>
    intro attempt lastError calls sleeps
    simp [loadLoop, finalFailure, resultWellFormed]
  | succ n ih =>
    intro attempt lastError calls sleeps
    rw [loadLoop]
    cases attemptLoad (t attempt) with
    | ok res => simp [resultWellFormed]
    | error msg =>
      by_cases hd : isDefinitiveError msg = true
      · simp [hd, finalFailure, resultWellFormed]
      · simp only [hd, Bool.false_eq_true, if_false]
        cases n with
        | zero => simp [finalFailure, resultWellFormed]
        | succ m => exact ih (attempt + 1) msg (calls + 1) _

/-- An attempt whose response has a non-success status fails with the
HTTP-status message. -/
theorem attemptLoad_bad_status {status : Nat} (statusText : String) (ct : Option String)
    (blob : Except String (List Nat)) (h : responseOk status = false) :
    attemptLoad (.response status statusText ct blob)
      = .error ("HTTP " ++ toString status ++ ": " ++ statusText) := by
  simp [attemptLoad, h]

/-- An attempt whose success-status response carries an HTML content-type
fails with the HTML message. -/
theorem attemptLoad_html {status : Nat} (statusText : String) (ct : Option String)
    (blob : Except String (List Nat)) (h : responseOk status = true)
    (hct : jsIncludes (ct.getD "") "text/html" = true) :
    attemptLoad (.response status statusText ct blob)
      = .error "Server returned HTML instead of image" := by
  simp [attemptLoad, h, hct]

/-- An attempt whose response passes every check succeeds with the object
URL wrapping the body. -/
theorem attemptLoad_pass {status : Nat} (statusText : String) (ct : Option String)
    (bytes : List Nat) (hok : responseOk status = true)
    (hct : jsIncludes (ct.getD "") "text/html" = false) (hb : bytes.length ≠ 0) :
    attemptLoad (.response status statusText ct (.ok bytes))
      = .ok (.objectUrl bytes) := by
  simp [attemptLoad, hok, hct, hb]

/-- A string starting with a slash starts with a slash. -/
theorem jsStartsWith_slash (p : String) : jsStartsWith ("/" ++ p) "/" = true := by
  unfold jsStartsWith
  rw [String.data_append]
  show List.isPrefixOf ['/'] ('/' :: p.data) = true
  simp [List.isPrefixOf]

/-- Dropping the first character of a string prefixed by one slash gives
back the original string. -/
theorem jsDropFirst_slash (p : String) : jsDropFirst ("/" ++ p) = p := by
  unfold jsDropFirst
  rw [String.data_append]
  cases p with
  | mk d => rfl

/-- The HTTP 404 failure message contains the substring 404, so the retry
loop treats it as definitive. -/
theorem definitive_404 (statusText : String) :
    isDefinitiveError ("HTTP " ++ toString (404 : Nat) ++ ": " ++ statusText) = true := by
  unfold isDefinitiveError
  exact Bool.or_eq_true_iff.mpr
    (Or.inl (jsIncludes_append_left ("HTTP " ++ toString (404 : Nat) ++ ": ")
      statusText "404" (by decide)))

/-!
Claim theorems for the Image Loader.
-/

/-- Claim C5: for a null path and for the empty-string path, `loadImage`
immediately returns the failure "No image path provided", with zero fetch
calls, no sleeps, and no request URL built. -/
theorem c5_empty_path (t : Transport) (baseUrl : String) :
    loadImage t baseUrl none
      = ⟨{ success := false, url := none, error := some "No image path provided" },
          0, [], none⟩ ∧
    loadImage t baseUrl (some "")
      = ⟨{ success := false, url := none, error := some "No image path provided" },
          0, [], none⟩ :=
  ⟨rfl, rfl⟩

/-- Claim C6: for every path and every transport behaviour (thrown fetch
errors, aborts, body-read failures, arbitrary responses), `loadImage`
resolves to a well-formed result value: a success holding a resource and
no error, or a failure holding an error message — it is a total function
of the transport, with every failure mode a `Failure` value. -/
theorem c6_never_throws (t : Transport) (baseUrl : String) (path : Option String) :
    resultWellFormed (loadImage t baseUrl path).result = true := by
  cases path with
  | none => rfl
  | some p =>
    by_cases hp : emptyPathGuard p = true
    · simp [loadImage, hp, resultWellFormed]
    · rw [loadImage_valid t baseUrl p (by simpa using hp)]
      exact loadLoop_wellFormed t _ IMAGE_RETRY_ATTEMPTS 1 "" 0 []

/-- Claim C2: `loadImage` performs at most 2 fetch attempts; when the
first attempt fails non-definitively it sleeps exactly 500ms (the delay
`IMAGE_RETRY_DELAY * 1`) before the second attempt, which is performed;
and when the second attempt also fails (its reason being a non-empty
message), the returned failure carries that last attempt's reason. -/
theorem c2_retry_policy :
    (∀ (t : Transport) (baseUrl : String) (path : Option String),
      (loadImage t baseUrl path).fetchCalls ≤ 2) ∧
    (∀ (t : Transport) (baseUrl p m1 : String),
      emptyPathGuard p = false →
      attemptLoad (t 1) = .error m1 →
      isDefinitiveError m1 = false →
      (loadImage t baseUrl (some p)).sleeps = [500] ∧
      (loadImage t baseUrl (some p)).fetchCalls = 2) ∧
    (∀ (t : Transport) (baseUrl p m1 m2 : String),
      emptyPathGuard p = false →
      attemptLoad (t 1) = .error m1 →
      isDefinitiveError m1 = false →
      attemptLoad (t 2) = .error m2 →
      m2 ≠ "" →
      (loadImage t baseUrl (some p)).result
        = { success := false, url := none, error := some m2 }) := by
  refine ⟨?_, ?_, ?_⟩
  · intro t baseUrl path
    cases path with
    | none => simp [loadImage]
    | some p =>
      by_cases hp : emptyPathGuard p = true
      · simp [loadImage, hp]
      · rw [loadImage_valid t baseUrl p (by simpa using hp)]
        exact loadLoop_fetchCalls_le t _ IMAGE_RETRY_ATTEMPTS 1 "" 0 []
  · intro t baseUrl p m1 hp h1 hd1
    have hload : loadImage t baseUrl (some p)
        = loadLoop t
            (baseUrl ++ "/image-proxy/" ++
              (if jsStartsWith p "/" then jsDropFirst p else p)) 1 2 m1 1 [500] := by
      rw [loadImage_valid t baseUrl p hp]
      exact loadLoop_step_retry t _ 0 1 "" 0 [] m1 h1 hd1
    rw [hload]
    exact ⟨(loadLoop_last t _ 2 m1 1 [500]).1, (loadLoop_last t _ 2 m1 1 [500]).2.1⟩
  · intro t baseUrl p m1 m2 hp h1 hd1 h2 hm2
    have hload : loadImage t baseUrl (some p)
        = loadLoop t
            (baseUrl ++ "/image-proxy/" ++
              (if jsStartsWith p "/" then jsDropFirst p else p)) 1 2 m1 1 [500] := by
      rw [loadImage_valid t baseUrl p hp]
      exact loadLoop_step_retry t _ 0 1 "" 0 [] m1 h1 hd1
    rw [hload, (loadLoop_last t _ 2 m1 1 [500]).2.2.1 m2 h2, finalFailure_of_ne hm2]

/-- Transport for the C2 witness: every attempt yields HTTP 500. -/
def alwaysHttp500Transport : Transport := fun _ =>
  .response 500 "Internal Server Error" (some "image/png") (.ok [1, 2, 3])

/-- Witness for C2: a transport always answering HTTP 500 satisfies the
hypotheses, two attempts happen with one 500ms sleep, and the failure
carries the second attempt's reason. -/
theorem c2_retry_policy_witness :
    emptyPathGuard "media/x.png" = false ∧
    attemptLoad (alwaysHttp500Transport 1) = .error "HTTP 500: Internal Server Error" ∧
    isDefinitiveError "HTTP 500: Internal Server Error" = false ∧
    (loadImage alwaysHttp500Transport "http://backend" (some "media/x.png")).sleeps = [500] ∧
    (loadImage alwaysHttp500Transport "http://backend" (some "media/x.png")).result
      = { success := false, url := none, error := some "HTTP 500: Internal Server Error" } :=
  ⟨by decide, rfl, by decide,
    (c2_retry_policy.2.1 alwaysHttp500Transport "http://backend" "media/x.png"
      "HTTP 500: Internal Server Error" (by decide) rfl (by decide)).1,
    c2_retry_policy.2.2 alwaysHttp500Transport "http://backend" "media/x.png"
      "HTTP 500: Internal Server Error" "HTTP 500: Internal Server Error"
      (by decide) rfl (by decide) rfl (by decide)⟩

/-- Claim C4: response validation happens in order — a non-success status
yields the failure "HTTP {status}: {statusText}"; otherwise a content-type
containing text/html yields "Server returned HTML instead of image";
otherwise an empty body yields "Empty response received"; and when all
three checks pass the loop returns a success wrapping the response body in
an object-URL resource handle. -/
theorem c4_validation_order :
    (∀ (status : Nat) (statusText : String) (ct : Option String)
        (blob : Except String (List Nat)),
      responseOk status = false →
      attemptLoad (.response status statusText ct blob)
        = .error ("HTTP " ++ toString status ++ ": " ++ statusText)) ∧
    (∀ (status : Nat) (statusText : String) (ct : Option String)
        (blob : Except String (List Nat)),
      responseOk status = true →
      jsIncludes (ct.getD "") "text/html" = true →
      attemptLoad (.response status statusText ct blob)
        = .error "Server returned HTML instead of image") ∧
    (∀ (status : Nat) (statusText : String) (ct : Option String) (bytes : List Nat),
      responseOk status = true →
      jsIncludes (ct.getD "") "text/html" = false →
      bytes.length = 0 →
      attemptLoad (.response status statusText ct (.ok bytes))
        = .error "Empty response received") ∧
    (∀ (status : Nat) (statusText : String) (ct : Option String) (bytes : List Nat),
      responseOk status = true →
      jsIncludes (ct.getD "") "text/html" = false →
      bytes.length ≠ 0 →
      attemptLoad (.response status statusText ct (.ok bytes))
        = .ok (Resource.objectUrl bytes)) ∧
    (∀ (t : Transport) (url : String) (remaining attempt : Nat) (lastError : String)
        (calls : Nat) (sleeps : List Nat) (res : Resource),
      attemptLoad (t attempt) = .ok res →
      (loadLoop t url (remaining + 1) attempt lastError calls sleeps).result
        = { success := true, url := some res, error := none }) := by
  refine ⟨?_, ?_, ?_, ?_, ?_⟩
  · intro status statusText ct blob h
    simp [attemptLoad, h]
  · intro status statusText ct blob h hct
    simp [attemptLoad, h, hct]
  · intro status statusText ct bytes h hct hlen
    simp [attemptLoad, h, hct, hlen]
  · intro status statusText ct bytes h hct hlen
    simp [attemptLoad, h, hct, hlen]
  · intro t url remaining attempt lastError calls sleeps res h
    rw [loadLoop_first_ok t url remaining attempt lastError calls sleeps res h]

/-- Witness for C4: each validation branch evaluated at a concrete
response, and a passing first attempt making `loadImage` succeed. -/
theorem c4_validation_order_witness :
    responseOk 503 = false ∧
    attemptLoad (.response 503 "Service Unavailable" (some "image/png") (.ok [1]))
      = .error "HTTP 503: Service Unavailable" ∧
    attemptLoad (.response 200 "OK" (some "text/html; charset=utf-8") (.ok [1]))
      = .error "Server returned HTML instead of image" ∧
    attemptLoad (.response 200 "OK" (some "image/png") (.ok []))
      = .error "Empty response received" ∧
    attemptLoad (.response 200 "OK" (some "image/png") (.ok [9, 9]))
      = .ok (Resource.objectUrl [9, 9]) :=
  ⟨by decide,
    c4_validation_order.1 503 "Service Unavailable" (some "image/png") (.ok [1]) (by decide),
    c4_validation_order.2.1 200 "OK" (some "text/html; charset=utf-8") (.ok [1])
      (by decide) (by decide),
    c4_validation_order.2.2.1 200 "OK" (some "image/png") [] (by decide) (by decide) rfl,
    c4_validation_order.2.2.2.1 200 "OK" (some "image/png") [9, 9]
      (by decide) (by decide) (by decide)⟩

/-- Transport for the C3 counterexample: every attempt yields an HTTP 500
response whose content-type is text/html. -/
def html500Transport : Transport := fun _ =>
  .response 500 "Internal Server Error" (some "text/html") (.ok [1, 2, 3])

/-- Counterexample to claim C3 as stated: a response whose content-type is
text/html but whose status is 500 (non-success) is retried — two fetch
attempts happen with a 500ms delay, and the returned failure is the HTTP
failure, not the HTML one; the content-type is never even examined. -/
theorem c3_counterexample :
    (loadImage html500Transport "http://backend" (some "media/x.png")).fetchCalls = 2 ∧
    (loadImage html500Transport "http://backend" (some "media/x.png")).sleeps = [500] ∧
    (loadImage html500Transport "http://backend" (some "media/x.png")).result.error
      = some "HTTP 500: Internal Server Error" := by
  decide

/-- Claim C3 as amended: when the first attempt fails definitively — the
response is an HTTP 404, or it is a success-status response whose
content-type contains text/html (the HTML check runs only after the status
check passes) — `loadImage` returns that attempt's failure immediately:
exactly one fetch call, no sleep, and the failure message of that attempt. -/
theorem c3_definitive_failure_no_retry
    (t : Transport) (baseUrl p : String) (status : Nat) (statusText : String)
    (ct : Option String) (blob : Except String (List Nat))
    (hp : emptyPathGuard p = false)
    (ht : t 1 = .response status statusText ct blob)
    (hdef : status = 404 ∨
      (responseOk status = true ∧ jsIncludes (ct.getD "") "text/html" = true)) :
    ∃ msg, attemptLoad (t 1) = .error msg ∧ isDefinitiveError msg = true ∧
      (loadImage t baseUrl (some p)).result
        = { success := false, url := none, error := some msg } ∧
      (loadImage t baseUrl (some p)).fetchCalls = 1 ∧
      (loadImage t baseUrl (some p)).sleeps = [] := by
  have main : ∀ msg, attemptLoad (t 1) = .error msg → isDefinitiveError msg = true →
      msg ≠ "" →
      (loadImage t baseUrl (some p)).result
        = { success := false, url := none, error := some msg } ∧
      (loadImage t baseUrl (some p)).fetchCalls = 1 ∧
      (loadImage t baseUrl (some p)).sleeps = [] := by
    intro msg h1 hd hne
    have hload : loadImage t baseUrl (some p)
        = ⟨finalFailure msg, 1, [],
            some (baseUrl ++ "/image-proxy/" ++
              (if jsStartsWith p "/" then jsDropFirst p else p))⟩ := by
      rw [loadImage_valid t baseUrl p hp]
      exact loadLoop_first_definitive t _ 1 1 "" 0 [] msg h1 hd
    rw [hload, finalFailure_of_ne hne]
    exact ⟨rfl, rfl, rfl⟩
  rcases hdef with h404 | ⟨hok, hct⟩
  · subst h404
    have h1 : attemptLoad (t 1)
        = .error ("HTTP " ++ toString (404 : Nat) ++ ": " ++ statusText) := by
      rw [ht]; exact attemptLoad_bad_status statusText ct blob (by decide)
    have hd := definitive_404 statusText
    have hne : ("HTTP " ++ toString (404 : Nat) ++ ": " ++ statusText) ≠ "" :=
      append_ne_empty_of_left statusText (by decide)
    exact ⟨_, h1, hd, main _ h1 hd hne⟩
  · have h1 : attemptLoad (t 1) = .error "Server returned HTML instead of image" := by
      rw [ht]; exact attemptLoad_html statusText ct blob hok hct
    have hd : isDefinitiveError "Server returned HTML instead of image" = true := by
      decide
    exact ⟨_, h1, hd, main _ h1 hd (by decide)⟩

/-- Transport for the C3 witness: a plain HTTP 404 on the first attempt. -/
def http404Transport : Transport := fun _ =>
  .response 404 "Not Found" (some "image/png") (.ok [1, 2, 3])

/-- Witness for the amended C3: an HTTP 404 satisfies the hypotheses, and
the load finishes after one attempt with no sleep. -/
theorem c3_definitive_failure_no_retry_witness :
    emptyPathGuard "media/x.png" = false ∧
    (loadImage http404Transport "http://backend" (some "media/x.png")).fetchCalls = 1 ∧
    (loadImage http404Transport "http://backend" (some "media/x.png")).sleeps = [] := by
  refine ⟨by decide, ?_⟩
  obtain ⟨msg, _, _, _, hcalls, hsleeps⟩ :=
    c3_definitive_failure_no_retry http404Transport "http://backend" "media/x.png"
      404 "Not Found" (some "image/png") (.ok [1, 2, 3])
      (by decide) rfl (Or.inl rfl)
  exact ⟨hcalls, hsleeps⟩

/-- Claim C8: path normalization strips exactly one leading slash and
nothing else, so a path with a single leading slash and the same path
without it resolve to the identical proxy request URL
`{baseUrl}/image-proxy/{path}`. -/
theorem c8_leading_slash (t : Transport) (baseUrl p : String)
    (hp : emptyPathGuard p = false)
    (hps : emptyPathGuard ("/" ++ p) = false)
    (hns : jsStartsWith p "/" = false) :
    (loadImage t baseUrl (some ("/" ++ p))).requestUrl
      = some (baseUrl ++ "/image-proxy/" ++ p) ∧
    (loadImage t baseUrl (some p)).requestUrl
      = some (baseUrl ++ "/image-proxy/" ++ p) := by
  constructor
  · rw [loadImage_valid t baseUrl _ hps, loadLoop_requestUrl,
      jsStartsWith_slash p]
    simp [jsDropFirst_slash]
  · rw [loadImage_valid t baseUrl p hp, loadLoop_requestUrl]
    simp [hns]

/-- Transport for the C8 witness. -/
def okPngTransport : Transport := fun _ =>
  .response 200 "OK" (some "image/png") (.ok [5, 6])

/-- Witness for C8 at the spec's own example paths. -/
theorem c8_leading_slash_witness :
    emptyPathGuard "media/x.png" = false ∧
    emptyPathGuard "/media/x.png" = false ∧
    jsStartsWith "media/x.png" "/" = false ∧
    (loadImage okPngTransport "http://backend" (some "/media/x.png")).requestUrl
      = some "http://backend/image-proxy/media/x.png" ∧
    (loadImage okPngTransport "http://backend" (some "media/x.png")).requestUrl
      = some "http://backend/image-proxy/media/x.png" := by
  refine ⟨by decide, by decide, by decide, ?_, ?_⟩
  · exact (c8_leading_slash okPngTransport "http://backend" "media/x.png"
      (by decide) (by decide) (by decide)).1
  · exact (c8_leading_slash okPngTransport "http://backend" "media/x.png"
      (by decide) (by decide) (by decide)).2

/-- Claim C10: a success-status response with a non-empty body succeeds
for any content-type that does not contain text/html — there is no
positive is-an-image validation in the loader. -/
theorem c10_no_image_type_validation
    (t : Transport) (baseUrl p : String) (status : Nat) (statusText ct : String)
    (bytes : List Nat)
    (hp : emptyPathGuard p = false)
    (ht : t 1 = .response status statusText (some ct) (.ok bytes))
    (hok : responseOk status = true)
    (hct : jsIncludes ct "text/html" = false)
    (hb : bytes ≠ []) :
    (loadImage t baseUrl (some p)).result
      = { success := true, url := some (Resource.objectUrl bytes), error := none } ∧
    (loadImage t baseUrl (some p)).fetchCalls = 1 := by
  have h1 : attemptLoad (t 1) = .ok (Resource.objectUrl bytes) := by
    rw [ht]
    exact attemptLoad_pass statusText (some ct) bytes hok hct
      (by simpa [List.length_eq_zero] using hb)
  have hload : loadImage t baseUrl (some p)
      = ⟨{ success := true, url := some (Resource.objectUrl bytes) }, 1, [],
          some (baseUrl ++ "/image-proxy/" ++
            (if jsStartsWith p "/" then jsDropFirst p else p))⟩ := by
    rw [loadImage_valid t baseUrl p hp]
    exact loadLoop_first_ok t _ 1 1 "" 0 [] _ h1
  rw [hload]
  exact ⟨rfl, rfl⟩

/-- Transport for the C10 witness: a JSON-typed success response. -/
def jsonTransport : Transport := fun _ =>
  .response 200 "OK" (some "application/json") (.ok [123, 125])

/-- Witness for C10: a 200 response typed application/json with a
non-empty body loads successfully, wrapping that body. -/
theorem c10_no_image_type_validation_witness :
    jsIncludes "application/json" "text/html" = false ∧
    (loadImage jsonTransport "http://backend" (some "media/x.png")).result
      = { success := true, url := some (Resource.objectUrl [123, 125]), error := none } := by
  refine ⟨by decide, ?_⟩
  exact (c10_no_image_type_validation jsonTransport "http://backend" "media/x.png"
    200 "OK" "application/json" [123, 125]
    (by decide) rfl (by decide) (by decide) (by decide)).1

/-!
Claim theorems for the Image Display Surface.
-/

/-- A surface whose error cell is falsy renders the generic render-failure
caption when the error box is shown for a render failure. -/
theorem errorBox_caption (s : Surface) (h : errTruthy s = false) :
    jsStrOr s.error "Image failed to render" = "Image failed to render" := by
  cases he : s.error with
  | none => rfl
  | some m =>
    have hm : m = "" := by simpa [errTruthy, he] using h
    simp [jsStrOr, he, hm]

/-- Claim C1: a path change strictly increases the effect generation, so
every load dispatched before it becomes stale; a resolution carrying a
stale generation changes nothing the user can see — the state cells and
the rendered view are untouched; and in the spec's own scenario (load A
still in flight when the path changes to B, B's load resolves, then A's
stale load resolves) the surface still renders B's image. -/
theorem c1_stale_result_discarded :
    (∀ (s : Surface) (p : Option String), s.gen < (setPathStep s p).gen) ∧
    (∀ (s : Surface) (g : Nat) (result : ImageLoadResult) (sp : Bool),
      g ≠ s.gen →
        (resolveStep s g result).imageUrl = s.imageUrl ∧
        (resolveStep s g result).isLoading = s.isLoading ∧
        (resolveStep s g result).error = s.error ∧
        (resolveStep s g result).renderFailed = s.renderFailed ∧
        render sp (resolveStep s g result) = render sp s) ∧
    (run initSurface
        [Event.setPath (some "a.png"), Event.setPath (some "b.png"),
          Event.resolve 2 { success := true, url := some (Resource.objectUrl [2]) },
          Event.resolve 1 { success := true, url := some (Resource.objectUrl [1]) }]).imageUrl
      = some (Resource.objectUrl [2]) ∧
    render true (run initSurface
        [Event.setPath (some "a.png"), Event.setPath (some "b.png"),
          Event.resolve 2 { success := true, url := some (Resource.objectUrl [2]) },
          Event.resolve 1 { success := true, url := some (Resource.objectUrl [1]) }])
      = View.image (Resource.objectUrl [2]) := by
  refine ⟨?_, ?_, by decide, by decide⟩
  · intro s p
    have hg : (setPathStep s p).gen = s.gen + 1 := by
      unfold setPathStep
      cases hpt : pathTruthy p <;> simp
    rw [hg]
    exact Nat.lt_succ_self s.gen
  · intro s g result sp h
    have hbeq : (g == s.gen) = false := beq_eq_false_iff_ne.mpr h
    have hres : resolveStep s g result
        = { s with released := s.released ++ result.url.toList } := by
      unfold resolveStep
      rw [hbeq]
      simp
    exact ⟨by rw [hres], by rw [hres], by rw [hres], by rw [hres],
      by rw [hres]; rfl⟩

/-- Witness for C1: after the path changed from a.png to b.png the
surface's generation is 2, so the load dispatched for a.png (generation 1)
is stale, and its success resolution leaves the displayed image unchanged. -/
theorem c1_stale_result_discarded_witness :
    (1 : Nat) ≠ (setPathStep (setPathStep initSurface (some "a.png")) (some "b.png")).gen ∧
    (resolveStep (setPathStep (setPathStep initSurface (some "a.png")) (some "b.png")) 1
        { success := true, url := some (Resource.objectUrl [1]) }).imageUrl
      = (setPathStep (setPathStep initSurface (some "a.png")) (some "b.png")).imageUrl :=
  ⟨by decide,
    (c1_stale_result_discarded.2.1
      (setPathStep (setPathStep initSurface (some "a.png")) (some "b.png")) 1
      { success := true, url := some (Resource.objectUrl [1]) } true (by decide)).1⟩

/-- Claim C7: from a state rendering the image element, one firing of the
render-error handler sets the render-failed flag, after which the error
box with the caption "Image failed to render" is shown; a further firing
of the handler leaves the state exactly unchanged. -/
theorem c7_render_error_once (sp : Bool) (s : Surface) (r : Resource)
    (h : render sp s = View.image r) :
    (renderErrorStep s).renderFailed = true ∧
    render sp (renderErrorStep s) = View.errorBox "Image failed to render" ∧
    renderErrorStep (renderErrorStep s) = renderErrorStep s := by
  have hfacts : (s.isLoading && sp) = false ∧ errTruthy s = false ∧
      s.renderFailed = false := by
    unfold render at h
    by_cases h1 : (s.isLoading && sp) = true
    · rw [if_pos h1] at h; simp at h
    · rw [if_neg h1] at h
      by_cases h2 : (errTruthy s || s.renderFailed) = true
      · rw [if_pos h2] at h; simp at h
      · rw [if_neg h2] at h
        have h1' : (s.isLoading && sp) = false := by
          revert h1; cases (s.isLoading && sp) <;> simp
        have h2' : (errTruthy s || s.renderFailed) = false := by
          revert h2; cases (errTruthy s || s.renderFailed) <;> simp
        exact ⟨h1', (Bool.or_eq_false_iff.mp h2').1, (Bool.or_eq_false_iff.mp h2').2⟩
  obtain ⟨hL, hET, hRF⟩ := hfacts
  have hstep : renderErrorStep s = { s with renderFailed := true } := by
    unfold renderErrorStep
    rw [hRF]
    rfl
  refine ⟨by rw [hstep], ?_, ?_⟩
  · rw [hstep]
    have hbox : render sp { s with renderFailed := true }
        = View.errorBox (jsStrOr s.error "Image failed to render") := by
      unfold render
      rw [if_neg (by simp [hL]), if_pos (by simp)]
    rw [hbox, errorBox_caption s hET]
  · rw [hstep]
    simp [renderErrorStep]

/-- Surface in the Loaded state for the C7 witness. -/
def loadedSurface : Surface :=
  { imageUrl := some (Resource.objectUrl [7]), isLoading := false, error := none
    renderFailed := false, gen := 1, mounted := true
    currentUrl := some (Resource.objectUrl [7]), released := []
    callbacks := [CallbackEvent.onLoad] }

/-- Witness for C7: a concrete Loaded surface transitions to the error box
on the first render-error firing. -/
theorem c7_render_error_once_witness :
    render true loadedSurface = View.image (Resource.objectUrl [7]) ∧
    (renderErrorStep loadedSurface).renderFailed = true ∧
    render true (renderErrorStep loadedSurface)
      = View.errorBox "Image failed to render" :=
  ⟨by decide,
    (c7_render_error_once true loadedSurface (Resource.objectUrl [7]) (by decide)).1,
    (c7_render_error_once true loadedSurface (Resource.objectUrl [7]) (by decide)).2.1⟩

/-- Counterexample to claim C9 as stated: on a null (and likewise empty)
`imagePath` the surface's displayed error text is not "No image path
provided", and no callback is invoked with that reason either — the code
uses two different, shorter strings. -/
theorem c9_counterexample :
    (setPathStep initSurface none).error ≠ some "No image path provided" ∧
    CallbackEvent.onError "No image path provided"
      ∉ (setPathStep initSurface none).callbacks ∧
    (setPathStep initSurface (some "")).error ≠ some "No image path provided" ∧
    CallbackEvent.onError "No image path provided"
      ∉ (setPathStep initSurface (some "")).callbacks := by
  decide

/-- Claim C9 as amended: on a null or empty `imagePath` the surface enters
the Errored state displaying the text "No image provided", dispatches no
load (loading ends synchronously, no image held), and invokes the onError
callback — but with the distinct reason string "No image path", not the
displayed text. -/
theorem c9_empty_path_error_surfaced (s : Surface) (p : Option String) (sp : Bool)
    (hp : pathTruthy p = false) :
    (setPathStep s p).isLoading = false ∧
    (setPathStep s p).error = some "No image provided" ∧
    (setPathStep s p).imageUrl = none ∧
    render sp (setPathStep s p) = View.errorBox "No image provided" ∧
    (setPathStep s p).callbacks
      = s.callbacks ++ [CallbackEvent.onError "No image path"] := by
  have hstep : setPathStep s p
      = { s with gen := s.gen + 1
                 released := s.released ++ s.currentUrl.toList
                 currentUrl := none
                 isLoading := false
                 error := some "No image provided"
                 imageUrl := none
                 renderFailed := false
                 callbacks := s.callbacks ++ [CallbackEvent.onError "No image path"] } := by
    unfold setPathStep
    rw [hp]
    rfl
  rw [hstep]
  refine ⟨rfl, rfl, rfl, ?_, rfl⟩
  cases sp <;> rfl

/-- Witness for the amended C9: the null path at a fresh surface. -/
theorem c9_empty_path_error_surfaced_witness :
    pathTruthy none = false ∧
    (setPathStep initSurface none).error = some "No image provided" ∧
    render true (setPathStep initSurface none) = View.errorBox "No image provided" :=
  ⟨by decide,
    (c9_empty_path_error_surfaced initSurface none true (by decide)).2.1,
    (c9_empty_path_error_surfaced initSurface none true (by decide)).2.2.2.1⟩

end StockImage
